import Mathlib

/-!
Verification of the `crc` core against its specification.

Shallow embedding of:
- `vendor/github.com/code-ready/machine/libmachine/host/host.go`
  (Host entity, lifecycle state machine, hostname validation);
- `pkg/crc/preflight/preflight_linux.go`
  (preflight check tables, registry builder, vsock check).

Collaborators that live outside the provided sources (the `state`,
`drivers`, `mcnutils`, `network`, `linux` packages and the `Check`
struct declaration) are modelled from the spec, as marked on each
definition.
-/

set_option autoImplicit false

/-- Modelled from the spec: the `state` package's machine-state
enumeration (`Starting, Running, Paused, Stopping, Stopped, Error,
Timeout, Saved`); the core only compares these values for equality. -/
inductive MachineState where
  | starting
  | running
  | paused
  | stopping
  | stopped
  | error
  | timeout
  | saved
deriving DecidableEq, Repr

/-- A Go `error` value as seen across the driver boundary: whether the
error chain contains an `rpc.ServerError` (what `errors.As(err, &e)`
with `e : rpc.ServerError` tests) and the text `err.Error()` returns. -/
structure DriverError where
  isServerError : Bool
  msg : String
deriving DecidableEq, Repr

/-- The driver capability contract (`drivers.Driver`), embedded as an
oracle: `getState i` is the state the driver reports at the i-th
`GetState` poll of the run; each action's outcome and the raw-config
update outcome are fixed response values. -/
structure Driver where
  getState : Nat → MachineState
  startErr : Option DriverError
  stopErr : Option DriverError
  killErr : Option DriverError
  restartErr : Option DriverError
  updateConfigRaw : List Nat → Option DriverError
  url : Except DriverError String

/-- Modelled from the spec: `engine.Options`, `swarm.Options` and
`auth.Options` are opaque forwarded configuration; represented as
opaque tokens. -/
structure Options where
  Driver : String
  Memory : Int
  Disk : Int
  EngineOptions : Option String
  SwarmOptions : Option String
  AuthOptions : Option String
deriving DecidableEq, Repr

/-- The `Host` record of host.go (the `Driver` handle is passed to each
operation separately; the Go methods never reassign it). `RawDriver`
is the serialized driver configuration (`[]byte`). -/
structure Host where
  ConfigVersion : Int
  DriverName : String
  DriverPath : String
  HostOptions : Options
  Name : String
  RawDriver : List Nat
deriving DecidableEq, Repr

/-- Errors a Host operation can return. `alreadyInState` is
`mcnerror.ErrHostAlreadyInState`, `timeout` the wait utility's timeout,
`notImplemented` is `drivers.ErrNotImplemented`, and `driver` wraps an
error propagated unchanged from a driver call. -/
inductive HostError where
  | alreadyInState (name : String) (s : MachineState)
  | timeout
  | notImplemented
  | driver (e : DriverError)
deriving DecidableEq, Repr

/-- Which driver action functions a lifecycle operation invoked, in
order (GetState polls are tracked by the poll index, not logged). -/
inductive ActionCall where
  | start
  | stop
  | kill
  | restart
deriving DecidableEq, Repr

/-- Modelled from the spec: `drivers.MachineInState(d, s)` returns a
predicate reporting whether the driver currently reports state `s`;
here indexed by the poll position `i` in the run. -/
def MachineInState (d : Driver) (s : MachineState) : Nat → Bool :=
  fun i => d.getState i == s

/-- Modelled from the spec: `mcnutils.WaitFor` repeatedly evaluates a
predicate with a bounded attempt budget, returning success the first
time it is true and a `Timeout` error when the budget is exhausted.
`i` is the poll index of the first evaluation. -/
def WaitForFrom (pred : Nat → Bool) (i : Nat) : Nat → Except HostError Unit
  | 0 => Except.error HostError.timeout
  | budget + 1 =>
    if pred i then Except.ok () else WaitForFrom pred (i + 1) budget

/-- host.go `runActionForState`: guard on the desired state (consuming
poll `i`), fail fast with `AlreadyInState` if it already holds,
otherwise run the action (outcome `actionErr`, logged as `act`) and on
its success wait for the desired state from poll `i+1`. -/
def runActionForState (d : Driver) (name : String) (act : ActionCall)
    (actionErr : Option DriverError) (desiredState : MachineState)
    (i budget : Nat) : Except HostError Unit × List ActionCall :=
  if MachineInState d desiredState i then
    (Except.error (HostError.alreadyInState name desiredState), [])
  else
    match actionErr with
    | some e => (Except.error (HostError.driver e), [act])
    | none => (WaitForFrom (MachineInState d desiredState) (i + 1) budget, [act])

/-- host.go `Start`: `runActionForState(h.Driver.Start, state.Running)`.
Returns the (unchanged) host, the result, and the driver actions
invoked. `i` is the poll index at which the operation begins. -/
def Host.Start (h : Host) (d : Driver) (i budget : Nat) :
    Host × Except HostError Unit × List ActionCall :=
  let r := runActionForState d h.Name ActionCall.start d.startErr MachineState.running i budget
  (h, r.1, r.2)

/-- host.go `Stop`: `runActionForState(h.Driver.Stop, state.Stopped)`. -/
def Host.Stop (h : Host) (d : Driver) (i budget : Nat) :
    Host × Except HostError Unit × List ActionCall :=
  let r := runActionForState d h.Name ActionCall.stop d.stopErr MachineState.stopped i budget
  (h, r.1, r.2)

/-- host.go `Kill`: `runActionForState(h.Driver.Kill, state.Stopped)`. -/
def Host.Kill (h : Host) (d : Driver) (i budget : Nat) :
    Host × Except HostError Unit × List ActionCall :=
  let r := runActionForState d h.Name ActionCall.kill d.killErr MachineState.stopped i budget
  (h, r.1, r.2)

/-- host.go `Restart`: if the driver reports Stopped (poll `i`),
delegate to `Start` (whose polls begin at `i+1`); else if it reports
Running (poll `i+1`), call the driver's restart action and on success
wait for Running from poll `i+2`; otherwise do nothing and succeed. -/
def Host.Restart (h : Host) (d : Driver) (i budget : Nat) :
    Host × Except HostError Unit × List ActionCall :=
  if MachineInState d MachineState.stopped i then
    h.Start d (i + 1) budget
  else if MachineInState d MachineState.running (i + 1) then
    match d.restartErr with
    | some e => (h, Except.error (HostError.driver e), [ActionCall.restart])
    | none =>
      (h, WaitForFrom (MachineInState d MachineState.running) (i + 2) budget,
        [ActionCall.restart])
  else
    (h, Except.ok (), [])

/-- host.go `UpdateConfig`: forward `rawConfig` to the driver's
`UpdateConfigRaw`; on failure, translate an `rpc.ServerError` whose
message is exactly "Not Implemented" to `drivers.ErrNotImplemented`
and propagate every other error unchanged; on success only, replace
`RawDriver` with `rawConfig`. -/
def Host.UpdateConfig (h : Host) (d : Driver) (rawConfig : List Nat) :
    Host × Except HostError Unit :=
  match d.updateConfigRaw rawConfig with
  | some e =>
    if e.isServerError && e.msg == "Not Implemented" then
      (h, Except.error HostError.notImplemented)
    else
      (h, Except.error (HostError.driver e))
  | none => ({ h with RawDriver := rawConfig }, Except.ok ())

/-- host.go `URL`: pure passthrough to the driver's `GetURL`. -/
def Host.URL (h : Host) (d : Driver) : Host × Except DriverError String :=
  (h, d.url)

/-- host.go `ValidateHostName` / `validHostNamePattern`: whether `name`
matches the anchored Go regexp
`^[a-zA-Z0-9][a-zA-Z0-9\-\.]*$` (first character ASCII alphanumeric,
every further character ASCII alphanumeric, `-` or `.`). -/
def ValidateHostName (name : String) : Bool :=
  match name.data with
  | [] => false
  | c :: cs => c.isAlphanum && cs.all (fun d => d.isAlphanum || d == '-' || d == '.')

/-- Modelled from the spec: the applicability-flag bitmask of a
preflight check; values used by the tables in the provided sources are
none, `SetupOnly` and `CleanUpOnly`. -/
inductive CheckFlags where
  | noFlags
  | setupOnly
  | cleanupOnly
deriving DecidableEq, Repr

/-- Modelled from the spec: the preflight `Check` structure (its Go
declaration is outside the provided sources; field set taken from the
spec's data model and the tables in preflight_linux.go). The
detection/remediation/teardown closures are represented by the names
of the functions the tables install, "" when absent. -/
structure Check where
  configKeySuffix : String := ""
  checkDescription : String := ""
  check : String := ""
  fixDescription : String := ""
  fix : String := ""
  cleanupDescription : String := ""
  cleanup : String := ""
  flags : CheckFlags := CheckFlags.noFlags
deriving DecidableEq, Repr

/-- Modelled from the spec: the generic (platform-independent) check
table; its contents are outside the provided sources, so it is
represented as an opaque table of distinctly-keyed non-vsock checks. -/
def genericPreflightChecks : List Check :=
  [{ configKeySuffix := "check-generic-a", checkDescription := "generic check a", check := "genericCheckA" },
   { configKeySuffix := "check-generic-b", checkDescription := "generic check b", check := "genericCheckB" }]

/-- Modelled from the spec: the non-Windows (POSIX-only) check table;
its contents are outside the provided sources, so it is represented as
an opaque table of distinctly-keyed non-vsock checks. -/
def nonWinPreflightChecks : List Check :=
  [{ configKeySuffix := "check-nonwin-a", checkDescription := "non-windows check a", check := "nonWinCheckA" }]

/-- Modelled from the spec: the Red-Hat-family (package-manager) check
table; its contents are outside the provided sources, so it is
represented as an opaque table of distinctly-keyed non-vsock checks. -/
def redhatPreflightChecks : List Check :=
  [{ configKeySuffix := "check-redhat-a", checkDescription := "redhat-family check a", check := "redhatCheckA" }]

/-- preflight_linux.go `libvirtPreflightChecks`, transcribed entry by
entry. -/
def libvirtPreflightChecks : List Check :=
  [{ configKeySuffix := "check-virt-enabled",
     checkDescription := "Checking if Virtualization is enabled",
     check := "checkVirtualizationEnabled",
     fixDescription := "Setting up virtualization",
     fix := "fixVirtualizationEnabled" },
   { configKeySuffix := "check-kvm-enabled",
     checkDescription := "Checking if KVM is enabled",
     check := "checkKvmEnabled",
     fixDescription := "Setting up KVM",
     fix := "fixKvmEnabled" },
   { configKeySuffix := "check-libvirt-installed",
     checkDescription := "Checking if libvirt is installed",
     check := "checkLibvirtInstalled",
     fixDescription := "Installing libvirt service and dependencies",
     fix := "fixLibvirtInstalled" },
   { configKeySuffix := "check-user-in-libvirt-group",
     checkDescription := "Checking if user is part of libvirt group",
     check := "checkUserPartOfLibvirtGroup",
     fixDescription := "Adding user to libvirt group",
     fix := "fixUserPartOfLibvirtGroup" },
   { configKeySuffix := "check-libvirt-running",
     checkDescription := "Checking if libvirt daemon is running",
     check := "checkLibvirtServiceRunning",
     fixDescription := "Starting libvirt service",
     fix := "fixLibvirtServiceRunning" },
   { configKeySuffix := "check-libvirt-version",
     checkDescription := "Checking if a supported libvirt version is installed",
     check := "checkLibvirtVersion",
     fixDescription := "Installing a supported libvirt version",
     fix := "fixLibvirtVersion" },
   { configKeySuffix := "check-libvirt-driver",
     checkDescription := "Checking if crc-driver-libvirt is installed",
     check := "checkMachineDriverLibvirtInstalled",
     fixDescription := "Installing crc-driver-libvirt",
     fix := "fixMachineDriverLibvirtInstalled" },
   { configKeySuffix := "check-obsolete-libvirt-driver",
     checkDescription := "Checking for obsolete crc-driver-libvirt",
     check := "checkOldMachineDriverLibvirtInstalled",
     fixDescription := "Removing older system-wide crc-driver-libvirt",
     fix := "fixOldMachineDriverLibvirtInstalled",
     flags := CheckFlags.setupOnly },
   { configKeySuffix := "check-crc-network",
     checkDescription := "Checking if libvirt 'crc' network is available",
     check := "checkLibvirtCrcNetworkAvailable",
     fixDescription := "Setting up libvirt 'crc' network",
     fix := "fixLibvirtCrcNetworkAvailable",
     cleanupDescription := "Removing 'crc' network from libvirt",
     cleanup := "removeLibvirtCrcNetwork" },
   { configKeySuffix := "check-crc-network-active",
     checkDescription := "Checking if libvirt 'crc' network is active",
     check := "checkLibvirtCrcNetworkActive",
     fixDescription := "Starting libvirt 'crc' network",
     fix := "fixLibvirtCrcNetworkActive" },
   { cleanupDescription := "Removing the crc VM if exists",
     cleanup := "removeCrcVM",
     flags := CheckFlags.cleanupOnly }]

/-- preflight_linux.go `vsockPreflightChecks` (a single check). -/
def vsockPreflightChecks : Check :=
  { configKeySuffix := "check-vsock",
    checkDescription := "Checking if vsock is correctly configured",
    check := "checkVsock",
    fixDescription := "Checking if vsock is correctly configured",
    fix := "fixVsock" }

/-- Modelled from the spec: the network-transport mode — the default
mode or the kernel socket-passthrough ("vsock") mode. -/
inductive Mode where
  | defaultMode
  | vsockMode
deriving DecidableEq, Repr

/-- Modelled from the spec: the `linux.OsType` distribution identifier
is a string; the constants used by the builder. -/
abbrev OsType := String

/-- Modelled from the spec: `linux.Ubuntu`. -/
def linuxUbuntu : OsType := "ubuntu"

/-- Modelled from the spec: `linux.RHEL`. -/
def linuxRHEL : OsType := "rhel"

/-- Modelled from the spec: `linux.CentOS`. -/
def linuxCentOS : OsType := "centos"

/-- Modelled from the spec: `linux.Fedora`. -/
def linuxFedora : OsType := "fedora"

/-- preflight_linux.go `commonChecks`: generic, then non-Windows, then
libvirt tables, concatenated in order. -/
def commonChecks : List Check :=
  genericPreflightChecks ++ nonWinPreflightChecks ++ libvirtPreflightChecks

/-- preflight_linux.go `getPreflightChecksForDistro`: common checks,
the vsock check when in vsock mode, then the distribution branch
(nothing for Ubuntu; the Red-Hat table in default mode for
RHEL/CentOS/Fedora; a warning plus the Red-Hat table in default mode
for anything else). The second component collects the warning lines
the call logs. -/
def getPreflightChecksForDistro (distroId : OsType) (networkMode : Mode) :
    List Check × List String :=
  let checks := commonChecks
  let checks :=
    if networkMode = Mode.vsockMode then checks ++ [vsockPreflightChecks] else checks
  if distroId = linuxUbuntu then
    (checks, [])
  else if distroId = linuxRHEL ∨ distroId = linuxCentOS ∨ distroId = linuxFedora then
    (if networkMode = Mode.defaultMode then checks ++ redhatPreflightChecks else checks, [])
  else
    (if networkMode = Mode.defaultMode then checks ++ redhatPreflightChecks else checks,
     ["distribution-specific preflight checks are not implemented for " ++ distroId])

/-- preflight_linux.go `distro`: the detected distribution identifier,
"unknown" when `linux.GetOsRelease` fails. `osRelease` is the
environment's answer: `none` models a lookup error. -/
def distro (osRelease : Option OsType) : OsType :=
  match osRelease with
  | none => "unknown"
  | some id => id

/-- preflight_linux.go `getPreflightChecks`: ignores its boolean
parameter and delegates to the distro-specific builder for the
detected distribution. -/
def getPreflightChecks (osRelease : Option OsType) (_ : Bool) (networkMode : Mode) :
    List Check × List String :=
  getPreflightChecksForDistro (distro osRelease) networkMode

/-- preflight_linux.go `getAllPreflightChecks`: the default-mode list
for the detected distribution with the vsock check appended
unconditionally. -/
def getAllPreflightChecks (osRelease : Option OsType) : List Check × List String :=
  let r := getPreflightChecksForDistro (distro osRelease) Mode.defaultMode
  (r.1 ++ [vsockPreflightChecks], r.2)

/-- Whether `pat` occurs as a contiguous sublist of `hay`
(Go `strings.Contains` on the underlying characters). -/
def listContainsSub (hay pat : List Char) : Bool :=
  match hay with
  | [] => pat.isEmpty
  | _ :: t => pat.isPrefixOf hay || listContainsSub t pat

/-- Go `strings.Contains s pat`. -/
def strContains (s pat : String) : Bool :=
  listContainsSub s.data pat.data

/-- The `os.Stat` result fields `checkVsock` consumes: the owning
group id, the permission bits of `info.Mode()`, and whether
`info.Sys()` casts to `*syscall.Stat_t`. -/
structure StatInfo where
  gid : Nat
  mode : Nat
  sysCastOk : Bool
deriving DecidableEq, Repr

/-- The OS environment `checkVsock` reads: the running executable path
(`os.Executable`), the output of `getcap` on it, the `os.Stat` of
/dev/vsock, and the group-name lookup for a gid
(`user.LookupGroupId`); each `Except.error` models the corresponding
call failing with that error text. -/
structure VsockEnv where
  executable : Except String String
  getcapOutput : Except String String
  stat : Except String StatInfo
  lookupGroup : Nat → Except String String

/-- preflight_linux.go `checkVsock`: locate the executable, require
`getcap` output to contain "cap_net_bind_service+eip", stat
/dev/vsock, require its owning group to be named "libvirt", and fail
when the group permission bits (`mode & 0060`) are all clear. -/
def checkVsock (env : VsockEnv) : Except String Unit :=
  match env.executable with
  | Except.error e => Except.error e
  | Except.ok executable =>
    match env.getcapOutput with
    | Except.error e => Except.error e
    | Except.ok getcap =>
      if !(strContains getcap "cap_net_bind_service+eip") then
        Except.error ("capabilities are not correct for " ++ executable)
      else
        match env.stat with
        | Except.error e => Except.error e
        | Except.ok info =>
          if info.sysCastOk then
            match env.lookupGroup info.gid with
            | Except.error e => Except.error e
            | Except.ok group =>
              if group ≠ "libvirt" then
                Except.error "/dev/vsock is not is the right group"
              else if info.mode &&& 0o060 = 0 then
                Except.error "/dev/vsock doesn't have the right permissions"
              else
                Except.ok ()
          else
            Except.error "cannot cast info"

/-! ### Helper lemmas and sample values -/

theorem WaitForFrom_ok_iff (p : Nat → Bool) (i b : Nat) :
    WaitForFrom p i b = Except.ok () ↔ ∃ k, k < b ∧ p (i + k) = true := by
  induction b generalizing i with
  | zero => simp [WaitForFrom]
  | succ b ih =>
    cases hpi : p i with
    | true =>
      have hw : WaitForFrom p i (b + 1) = Except.ok () := by
        simp [WaitForFrom, hpi]
      rw [hw]
      constructor
      · intro _
        exact ⟨0, Nat.succ_pos b, by simpa using hpi⟩
      · intro _
        rfl
    | false =>
      have hw : WaitForFrom p i (b + 1) = WaitForFrom p (i + 1) b := by
        simp [WaitForFrom, hpi]
      rw [hw, ih]
      constructor
      · rintro ⟨k, hk, hpk⟩
        refine ⟨k + 1, Nat.succ_lt_succ hk, ?_⟩
        have harr : i + (k + 1) = i + 1 + k := by omega
        rw [harr]
        exact hpk
      · rintro ⟨k, hk, hpk⟩
        cases k with
        | zero =>
          rw [Nat.add_zero] at hpk
          rw [hpk] at hpi
          exact absurd hpi (by simp)
        | succ k =>
          refine ⟨k, Nat.lt_of_succ_lt_succ hk, ?_⟩
          have harr : i + 1 + k = i + (k + 1) := by omega
          rw [harr]
          exact hpk

theorem WaitForFrom_ok_or_timeout (p : Nat → Bool) (i b : Nat) :
    WaitForFrom p i b = Except.ok () ∨ WaitForFrom p i b = Except.error HostError.timeout := by
  induction b generalizing i with
  | zero => exact Or.inr rfl
  | succ b ih =>
    cases hpi : p i with
    | true =>
      exact Or.inl (by simp [WaitForFrom, hpi])
    | false =>
      have hw : WaitForFrom p i (b + 1) = WaitForFrom p (i + 1) b := by
        simp [WaitForFrom, hpi]
      rw [hw]
      exact ih (i + 1)

theorem runActionForState_spec (d : Driver) (name : String) (act : ActionCall)
    (aerr : Option DriverError) (t : MachineState) (i budget : Nat) :
    (d.getState i = t →
      runActionForState d name act aerr t i budget =
        (Except.error (HostError.alreadyInState name t), []))
    ∧ (d.getState i ≠ t →
        (∀ e, aerr = some e →
          runActionForState d name act aerr t i budget =
            (Except.error (HostError.driver e), [act]))
        ∧ (aerr = none →
          runActionForState d name act aerr t i budget =
            (WaitForFrom (MachineInState d t) (i + 1) budget, [act]))) := by
  constructor
  · intro hrun
    simp [runActionForState, MachineInState, hrun]
  · intro hne
    have hb : (d.getState i == t) = false := by
      simpa using hne
    constructor
    · intro e he
      simp [runActionForState, MachineInState, hb, he]
    · intro he
      simp [runActionForState, MachineInState, hb, he]

def sampleOptions : Options :=
  { Driver := "libvirt", Memory := 8192, Disk := 31, EngineOptions := none,
    SwarmOptions := none, AuthOptions := none }

def sampleHost : Host :=
  { ConfigVersion := 1, DriverName := "libvirt", DriverPath := "/usr/local/bin",
    HostOptions := sampleOptions, Name := "crc", RawDriver := [1, 2] }

/-- A driver that always reports Running and accepts every call. -/
def driverRunning : Driver :=
  { getState := fun _ => MachineState.running, startErr := none, stopErr := none,
    killErr := none, restartErr := none, updateConfigRaw := fun _ => none,
    url := Except.ok "tcp://192.168.130.11:2376" }

/-- A driver that reports Stopped on the first poll and Running from
then on, and accepts every call. -/
def driverStoppedThenRunning : Driver :=
  { getState := fun i => if i = 0 then MachineState.stopped else MachineState.running,
    startErr := none, stopErr := none, killErr := none, restartErr := none,
    updateConfigRaw := fun _ => none, url := Except.ok "tcp://192.168.130.11:2376" }

/-! ### Claims -/

/-- C1: for every Host and every single-target lifecycle operation —
Start (target Running), Stop (target Stopped), Kill (target Stopped) —
if the driver currently reports the target state the operation returns
`AlreadyInState{name, target}` with no driver action invoked; otherwise
it invokes the corresponding driver action exactly once, propagates an
action error unchanged, and on action success its result is that of
waiting for the target state, which succeeds exactly when the driver
reports the target within the attempt budget and otherwise is the wait
utility's timeout error. -/
theorem claim_C1_lifecycle_guard (h : Host) (d : Driver) (i budget : Nat) :
    ((d.getState i = MachineState.running →
        h.Start d i budget =
          (h, Except.error (HostError.alreadyInState h.Name MachineState.running), []))
      ∧ (d.getState i ≠ MachineState.running →
          (∀ e, d.startErr = some e →
            h.Start d i budget = (h, Except.error (HostError.driver e), [ActionCall.start]))
          ∧ (d.startErr = none →
            h.Start d i budget =
              (h, WaitForFrom (MachineInState d MachineState.running) (i + 1) budget,
                [ActionCall.start]))))
    ∧ ((d.getState i = MachineState.stopped →
        h.Stop d i budget =
          (h, Except.error (HostError.alreadyInState h.Name MachineState.stopped), []))
      ∧ (d.getState i ≠ MachineState.stopped →
          (∀ e, d.stopErr = some e →
            h.Stop d i budget = (h, Except.error (HostError.driver e), [ActionCall.stop]))
          ∧ (d.stopErr = none →
            h.Stop d i budget =
              (h, WaitForFrom (MachineInState d MachineState.stopped) (i + 1) budget,
                [ActionCall.stop]))))
    ∧ ((d.getState i = MachineState.stopped →
        h.Kill d i budget =
          (h, Except.error (HostError.alreadyInState h.Name MachineState.stopped), []))
      ∧ (d.getState i ≠ MachineState.stopped →
          (∀ e, d.killErr = some e →
            h.Kill d i budget = (h, Except.error (HostError.driver e), [ActionCall.kill]))
          ∧ (d.killErr = none →
            h.Kill d i budget =
              (h, WaitForFrom (MachineInState d MachineState.stopped) (i + 1) budget,
                [ActionCall.kill]))))
    ∧ (∀ s : MachineState, ∀ j b : Nat,
        (WaitForFrom (MachineInState d s) j b = Except.ok () ↔
          ∃ k, k < b ∧ d.getState (j + k) = s)
        ∧ (WaitForFrom (MachineInState d s) j b = Except.ok () ∨
            WaitForFrom (MachineInState d s) j b = Except.error HostError.timeout)) := by
  refine ⟨⟨?_, ?_⟩, ⟨?_, ?_⟩, ⟨?_, ?_⟩, ?_⟩
  · intro hrun
    have := (runActionForState_spec d h.Name ActionCall.start d.startErr
      MachineState.running i budget).1 hrun
    simp [Host.Start, this]
  · intro hne
    have hs := (runActionForState_spec d h.Name ActionCall.start d.startErr
      MachineState.running i budget).2 hne
    exact ⟨fun e he => by simp [Host.Start, hs.1 e he], fun he => by simp [Host.Start, hs.2 he]⟩
  · intro hrun
    have := (runActionForState_spec d h.Name ActionCall.stop d.stopErr
      MachineState.stopped i budget).1 hrun
    simp [Host.Stop, this]
  · intro hne
    have hs := (runActionForState_spec d h.Name ActionCall.stop d.stopErr
      MachineState.stopped i budget).2 hne
    exact ⟨fun e he => by simp [Host.Stop, hs.1 e he], fun he => by simp [Host.Stop, hs.2 he]⟩
  · intro hrun
    have := (runActionForState_spec d h.Name ActionCall.kill d.killErr
      MachineState.stopped i budget).1 hrun
    simp [Host.Kill, this]
  · intro hne
    have hs := (runActionForState_spec d h.Name ActionCall.kill d.killErr
      MachineState.stopped i budget).2 hne
    exact ⟨fun e he => by simp [Host.Kill, hs.1 e he], fun he => by simp [Host.Kill, hs.2 he]⟩
  · intro s j b
    constructor
    · simpa [MachineInState] using WaitForFrom_ok_iff (MachineInState d s) j b
    · exact WaitForFrom_ok_or_timeout (MachineInState d s) j b

/-- Witness for C1: on a driver already reporting Running, Start fails
with AlreadyInState and no action call; on a driver reporting Stopped
then Running, Start calls the start action once and succeeds. -/
theorem claim_C1_lifecycle_guard_witness :
    sampleHost.Start driverRunning 0 2 =
      (sampleHost, Except.error (HostError.alreadyInState "crc" MachineState.running), [])
    ∧ sampleHost.Start driverStoppedThenRunning 0 2 =
      (sampleHost, Except.ok (), [ActionCall.start]) := by
  constructor
  · exact (claim_C1_lifecycle_guard sampleHost driverRunning 0 2).1.1 rfl
  · have h2 := ((claim_C1_lifecycle_guard sampleHost driverStoppedThenRunning 0 2).1.2
      (by decide)).2 rfl
    rw [h2]
    rfl

/-- A driver that always reports Paused. -/
def driverPaused : Driver :=
  { getState := fun _ => MachineState.paused, startErr := none, stopErr := none,
    killErr := none, restartErr := none, updateConfigRaw := fun _ => none,
    url := Except.ok "tcp://192.168.130.11:2376" }

/-- A driver whose raw-config update fails with a plain (non-RPC)
error "boom". -/
def driverUpdateFails : Driver :=
  { getState := fun _ => MachineState.running, startErr := none, stopErr := none,
    killErr := none, restartErr := none,
    updateConfigRaw := fun _ => some { isServerError := false, msg := "boom" },
    url := Except.ok "tcp://192.168.130.11:2376" }

/-- A driver whose raw-config update fails with an `rpc.ServerError`
whose message is exactly "Not Implemented". -/
def driverServerNotImplemented : Driver :=
  { getState := fun _ => MachineState.running, startErr := none, stopErr := none,
    killErr := none, restartErr := none,
    updateConfigRaw := fun _ => some { isServerError := true, msg := "Not Implemented" },
    url := Except.ok "tcp://192.168.130.11:2376" }

/-- A driver whose raw-config update fails with a plain error whose
message happens to be exactly "Not Implemented" but which is not an
`rpc.ServerError`. -/
def driverPlainNotImplemented : Driver :=
  { getState := fun _ => MachineState.running, startErr := none, stopErr := none,
    killErr := none, restartErr := none,
    updateConfigRaw := fun _ => some { isServerError := false, msg := "Not Implemented" },
    url := Except.ok "tcp://192.168.130.11:2376" }

/-- C2: Restart on a driver reporting Stopped is exactly Start (same
driver calls, same outcome); on a driver reporting Running it calls
the restart action exactly once and then waits for Running, surfacing
the wait's outcome (success or timeout) as its own; on a driver
reporting any state other than Stopped and Running it performs zero
driver action calls and returns success. -/
theorem claim_C2_restart (h : Host) (d : Driver) (i budget : Nat) :
    (d.getState i = MachineState.stopped →
      h.Restart d i budget = h.Start d (i + 1) budget)
    ∧ (d.getState i = MachineState.running → d.getState (i + 1) = MachineState.running →
        (∀ e, d.restartErr = some e →
          h.Restart d i budget = (h, Except.error (HostError.driver e), [ActionCall.restart]))
        ∧ (d.restartErr = none →
          h.Restart d i budget =
            (h, WaitForFrom (MachineInState d MachineState.running) (i + 2) budget,
              [ActionCall.restart])))
    ∧ (∀ s : MachineState, d.getState i = s → d.getState (i + 1) = s →
        s ≠ MachineState.stopped → s ≠ MachineState.running →
        h.Restart d i budget = (h, Except.ok (), []))
    ∧ (∀ j b : Nat,
        WaitForFrom (MachineInState d MachineState.running) j b = Except.ok () ∨
        WaitForFrom (MachineInState d MachineState.running) j b = Except.error HostError.timeout) := by
  refine ⟨?_, ?_, ?_, ?_⟩
  · intro hstop
    simp [Host.Restart, MachineInState, hstop]
  · intro h0 h1
    have hb0 : (d.getState i == MachineState.stopped) = false := by simp [h0]
    have hb1 : (d.getState (i + 1) == MachineState.running) = true := by simp [h1]
    constructor
    · intro e he
      simp [Host.Restart, MachineInState, hb0, hb1, he]
    · intro he
      simp [Host.Restart, MachineInState, hb0, hb1, he]
  · intro s h0 h1 hns hnr
    have hb0 : (d.getState i == MachineState.stopped) = false := by
      simp [h0]
      exact hns
    have hb1 : (d.getState (i + 1) == MachineState.running) = false := by
      simp [h1]
      exact hnr
    simp [Host.Restart, MachineInState, hb0, hb1]
  · intro j b
    exact WaitForFrom_ok_or_timeout (MachineInState d MachineState.running) j b

/-- Witness for C2: a Running driver restarts with one restart call
and succeeds; a Stopped driver's Restart equals Start; a Paused driver
restarts as a no-op. -/
theorem claim_C2_restart_witness :
    sampleHost.Restart driverRunning 0 2 = (sampleHost, Except.ok (), [ActionCall.restart])
    ∧ sampleHost.Restart driverStoppedThenRunning 0 2 = sampleHost.Start driverStoppedThenRunning 1 2
    ∧ sampleHost.Restart driverPaused 0 2 = (sampleHost, Except.ok (), []) := by
  refine ⟨?_, ?_, ?_⟩
  · have h2 := ((claim_C2_restart sampleHost driverRunning 0 2).2.1 rfl rfl).2 rfl
    rw [h2]
    rfl
  · exact (claim_C2_restart sampleHost driverStoppedThenRunning 0 2).1 rfl
  · exact (claim_C2_restart sampleHost driverPaused 0 2).2.2.1 MachineState.paused rfl rfl
      (by decide) (by decide)

/-- C4 counterexample: a driver failure whose message is exactly "Not
Implemented" but which is not an `rpc.ServerError` is propagated as
the raw driver error, not translated to the typed NotImplemented
error — refuting the claim that the message alone triggers the
translation. -/
theorem claim_C4_counterexample :
    (sampleHost.UpdateConfig driverPlainNotImplemented [7]).2 =
      Except.error (HostError.driver { isServerError := false, msg := "Not Implemented" })
    ∧ (sampleHost.UpdateConfig driverPlainNotImplemented [7]).2 ≠
        Except.error HostError.notImplemented := by
  constructor
  · rfl
  · intro hco
    injection hco with h1
    exact HostError.noConfusion h1

/-- C4 (amended): a reconfiguration failure is translated to the typed
NotImplemented error exactly when it is an `rpc.ServerError` whose
message is exactly "Not Implemented"; every other failure is
propagated unchanged. -/
theorem claim_C4_amended_notImplemented (h : Host) (d : Driver) (cfg : List Nat)
    (e : DriverError) :
    d.updateConfigRaw cfg = some e →
    ((e.isServerError = true ∧ e.msg = "Not Implemented") →
      (h.UpdateConfig d cfg).2 = Except.error HostError.notImplemented)
    ∧ (¬(e.isServerError = true ∧ e.msg = "Not Implemented") →
      (h.UpdateConfig d cfg).2 = Except.error (HostError.driver e)) := by
  intro he
  constructor
  · rintro ⟨h1, h2⟩
    simp [Host.UpdateConfig, he, h1, h2]
  · intro hnc
    have hb : (e.isServerError && (e.msg == "Not Implemented")) = false := by
      rcases Bool.eq_false_or_eq_true e.isServerError with hs | hs
      · have hm : e.msg ≠ "Not Implemented" := fun hm => hnc ⟨hs, hm⟩
        simp [hs, hm]
      · simp [hs]
    simp [Host.UpdateConfig, he, hb]

/-- Witness for C4 (amended): an RPC server error "Not Implemented" is
translated; a plain "boom" failure is propagated unchanged. -/
theorem claim_C4_amended_notImplemented_witness :
    (sampleHost.UpdateConfig driverServerNotImplemented [3]).2 =
      Except.error HostError.notImplemented
    ∧ (sampleHost.UpdateConfig driverUpdateFails [3]).2 =
        Except.error (HostError.driver { isServerError := false, msg := "boom" }) := by
  constructor
  · exact (claim_C4_amended_notImplemented sampleHost driverServerNotImplemented [3]
      { isServerError := true, msg := "Not Implemented" } rfl).1 ⟨rfl, rfl⟩
  · exact (claim_C4_amended_notImplemented sampleHost driverUpdateFails [3]
      { isServerError := false, msg := "boom" } rfl).2 (by simp)

/-- C5: UpdateConfig is atomic with respect to the stored raw driver
configuration: on driver success the host's RawDriver afterwards is
exactly the supplied configuration (and nothing else changes); on any
driver failure the host record is unchanged and the operation does not
report success. -/
theorem claim_C5_updateConfig_atomic (h : Host) (d : Driver) (cfg : List Nat) :
    (d.updateConfigRaw cfg = none →
      h.UpdateConfig d cfg = ({ h with RawDriver := cfg }, Except.ok ()))
    ∧ (∀ e, d.updateConfigRaw cfg = some e →
      (h.UpdateConfig d cfg).1 = h ∧ (h.UpdateConfig d cfg).2 ≠ Except.ok ()) := by
  constructor
  · intro he
    simp [Host.UpdateConfig, he]
  · intro e he
    constructor
    · simp only [Host.UpdateConfig, he]
      split <;> rfl
    · simp only [Host.UpdateConfig, he]
      split <;> simp

/-- Witness for C5: a successful update stores the new raw config; a
failing update leaves the host unchanged and does not succeed. -/
theorem claim_C5_updateConfig_atomic_witness :
    sampleHost.UpdateConfig driverRunning [9, 9] =
      ({ sampleHost with RawDriver := [9, 9] }, Except.ok ())
    ∧ (sampleHost.UpdateConfig driverUpdateFails [9, 9]).1 = sampleHost
    ∧ (sampleHost.UpdateConfig driverUpdateFails [9, 9]).2 ≠ Except.ok () := by
  refine ⟨?_, ?_, ?_⟩
  · exact (claim_C5_updateConfig_atomic sampleHost driverRunning [9, 9]).1 rfl
  · exact ((claim_C5_updateConfig_atomic sampleHost driverUpdateFails [9, 9]).2
      { isServerError := false, msg := "boom" } rfl).1
  · exact ((claim_C5_updateConfig_atomic sampleHost driverUpdateFails [9, 9]).2
      { isServerError := false, msg := "boom" } rfl).2

/-- C6: no Host operation other than a successful UpdateConfig mutates
any field of the Host record: Start, Stop, Kill, Restart and URL leave
the record unchanged in every execution, and a failing UpdateConfig
does too. -/
theorem claim_C6_frame (h : Host) (d : Driver) (i budget : Nat) (cfg : List Nat) :
    (h.Start d i budget).1 = h ∧ (h.Stop d i budget).1 = h ∧ (h.Kill d i budget).1 = h
    ∧ (h.Restart d i budget).1 = h ∧ (h.URL d).1 = h
    ∧ (∀ e, d.updateConfigRaw cfg = some e → (h.UpdateConfig d cfg).1 = h) := by
  refine ⟨rfl, rfl, rfl, ?_, rfl, ?_⟩
  · unfold Host.Restart
    split
    · rfl
    · split
      · cases d.restartErr <;> rfl
      · rfl
  · intro e he
    simp only [Host.UpdateConfig, he]
    split <;> rfl

/-- Witness for C6: the frame property evaluated on a failing update. -/
theorem claim_C6_frame_witness :
    (sampleHost.Restart driverPaused 0 2).1 = sampleHost
    ∧ (sampleHost.UpdateConfig driverUpdateFails [5]).1 = sampleHost := by
  constructor
  · exact (claim_C6_frame sampleHost driverPaused 0 2 [5]).2.2.2.1
  · exact (claim_C6_frame sampleHost driverUpdateFails 0 2 [5]).2.2.2.2.2
      { isServerError := false, msg := "boom" } rfl

theorem forDistro_checks_eq (d : OsType) (m : Mode) :
    (getPreflightChecksForDistro d m).1 =
      commonChecks
      ++ (if m = Mode.vsockMode then [vsockPreflightChecks] else [])
      ++ (if d ≠ linuxUbuntu ∧ m = Mode.defaultMode then redhatPreflightChecks else []) := by
  unfold getPreflightChecksForDistro
  by_cases hu : d = linuxUbuntu
  · cases m <;> simp [hu]
  · by_cases hr : d = linuxRHEL ∨ d = linuxCentOS ∨ d = linuxFedora
    · cases m <;> simp [hu, hr]
    · cases m <;> simp [hu, hr]

theorem forDistro_warnings_eq (d : OsType) (m : Mode) :
    (getPreflightChecksForDistro d m).2 =
      if d = linuxUbuntu ∨ d = linuxRHEL ∨ d = linuxCentOS ∨ d = linuxFedora then []
      else ["distribution-specific preflight checks are not implemented for " ++ d] := by
  unfold getPreflightChecksForDistro
  by_cases hu : d = linuxUbuntu
  · cases m <;> simp [hu]
  · by_cases hr : d = linuxRHEL ∨ d = linuxCentOS ∨ d = linuxFedora
    · cases m <;> simp [hu, hr]
    · cases m <;> simp [hu, hr]

theorem count_vsock_commonChecks : commonChecks.count vsockPreflightChecks = 0 := by
  decide

theorem count_vsock_redhat : redhatPreflightChecks.count vsockPreflightChecks = 0 := by
  decide

theorem count_vsock_forDistro (d : OsType) (m : Mode) :
    (getPreflightChecksForDistro d m).1.count vsockPreflightChecks =
      if m = Mode.vsockMode then 1 else 0 := by
  rw [forDistro_checks_eq, List.count_append, List.count_append,
    count_vsock_commonChecks]
  cases m with
  | defaultMode =>
    by_cases hu : d = linuxUbuntu <;> simp [hu, count_vsock_redhat]
  | vsockMode =>
    simp

/-- C3: for every distribution and network mode, the builder returns
the generic, non-Windows and libvirt tables in order, then the single
vsock check exactly in vsock mode, then the distribution branch
(nothing for Ubuntu, the Red-Hat table in default mode for everything
else); a warning is recorded exactly for unrecognized distributions;
and in vsock mode the result has exactly one vsock check regardless of
distribution. -/
theorem claim_C3_registry_builder (d : OsType) (m : Mode) :
    (getPreflightChecksForDistro d m).1 =
      genericPreflightChecks ++ nonWinPreflightChecks ++ libvirtPreflightChecks
      ++ (if m = Mode.vsockMode then [vsockPreflightChecks] else [])
      ++ (if d = linuxUbuntu then []
          else if m = Mode.defaultMode then redhatPreflightChecks else [])
    ∧ ((getPreflightChecksForDistro d m).2 = [] ↔
        (d = linuxUbuntu ∨ d = linuxRHEL ∨ d = linuxCentOS ∨ d = linuxFedora))
    ∧ (m = Mode.vsockMode →
        (getPreflightChecksForDistro d m).1.count vsockPreflightChecks = 1) := by
  refine ⟨?_, ?_, ?_⟩
  · rw [forDistro_checks_eq, commonChecks]
    by_cases hu : d = linuxUbuntu
    · simp [hu]
    · cases m <;> simp [hu]
  · rw [forDistro_warnings_eq]
    by_cases hr : d = linuxUbuntu ∨ d = linuxRHEL ∨ d = linuxCentOS ∨ d = linuxFedora
    · simp [hr]
    · simp [hr]
  · intro hm
    rw [count_vsock_forDistro, hm]
    rfl

/-- Witness for C3: an unrecognized distribution in vsock mode yields
exactly one vsock check, and in default mode records a warning. -/
theorem claim_C3_registry_builder_witness :
    (getPreflightChecksForDistro "arch-unknown-xyz" Mode.vsockMode).1.count
      vsockPreflightChecks = 1
    ∧ (getPreflightChecksForDistro "arch-unknown-xyz" Mode.defaultMode).2 ≠ [] := by
  constructor
  · exact (claim_C3_registry_builder "arch-unknown-xyz" Mode.vsockMode).2.2 rfl
  · intro hnil
    have hrec :=
      (claim_C3_registry_builder "arch-unknown-xyz" Mode.defaultMode).2.1.mp hnil
    revert hrec
    decide

/-- C8: the "all checks" entry point is exactly the mode-filtered list
for the detected distribution under the default mode with the single
vsock check appended; hence it contains exactly one vsock check and is
a strict superset of the default-mode filtered list. -/
theorem claim_C8_all_checks (osRelease : Option OsType) (b : Bool) :
    (getAllPreflightChecks osRelease).1 =
      (getPreflightChecks osRelease b Mode.defaultMode).1 ++ [vsockPreflightChecks]
    ∧ (getAllPreflightChecks osRelease).1.count vsockPreflightChecks = 1
    ∧ vsockPreflightChecks ∉ (getPreflightChecks osRelease b Mode.defaultMode).1
    ∧ (∀ c ∈ (getPreflightChecks osRelease b Mode.defaultMode).1,
        c ∈ (getAllPreflightChecks osRelease).1) := by
  have h0 : (getPreflightChecks osRelease b Mode.defaultMode).1.count vsockPreflightChecks = 0 := by
    have hc := count_vsock_forDistro (distro osRelease) Mode.defaultMode
    simpa [getPreflightChecks] using hc
  have hall : (getAllPreflightChecks osRelease).1 =
      (getPreflightChecks osRelease b Mode.defaultMode).1 ++ [vsockPreflightChecks] := rfl
  refine ⟨hall, ?_, ?_, ?_⟩
  · rw [hall, List.count_append, h0]
    rfl
  · exact List.count_eq_zero.mp h0
  · intro c hc
    rw [hall]
    exact List.mem_append_left _ hc

/-- Witness for C8: evaluated with a detected Fedora distribution. -/
theorem claim_C8_all_checks_witness :
    (getAllPreflightChecks (some "fedora")).1.count vsockPreflightChecks = 1
    ∧ vsockPreflightChecks ∉ (getPreflightChecks (some "fedora") true Mode.defaultMode).1 :=
  ⟨(claim_C8_all_checks (some "fedora") true).2.1,
   (claim_C8_all_checks (some "fedora") true).2.2.1⟩

/-- C10: the mode-filtered entry point ignores its boolean first
parameter entirely: for every environment and network mode, both
boolean values produce the same result. -/
theorem claim_C10_bool_ignored (osRelease : Option OsType) (b1 b2 : Bool) (m : Mode) :
    getPreflightChecks osRelease b1 m = getPreflightChecks osRelease b2 m := rfl

/-- An environment where the capability string is present and the
device group is libvirt, but the group permission bits grant read only
(mode 0o040), not write. -/
def envGroupReadOnly : VsockEnv :=
  { executable := Except.ok "/usr/local/bin/crc",
    getcapOutput := Except.ok "/usr/local/bin/crc = cap_net_bind_service+eip",
    stat := Except.ok { gid := 990, mode := 32, sysCastOk := true },
    lookupGroup := fun _ => Except.ok "libvirt" }

/-- An environment where the capability string is present, the device
group is libvirt, and the group permission bits grant read and write
(mode 0o060). -/
def envGroupReadWrite : VsockEnv :=
  { executable := Except.ok "/usr/local/bin/crc",
    getcapOutput := Except.ok "/usr/local/bin/crc = cap_net_bind_service+eip",
    stat := Except.ok { gid := 990, mode := 48, sysCastOk := true },
    lookupGroup := fun _ => Except.ok "libvirt" }

/-- C7 counterexample: with the capability string present and the
owning group libvirt, a /dev/vsock whose group permission bits grant
read but not write (0o040: bit 0o020 for group write is clear) still
passes the check, because the code only fails when `mode & 0060` is
zero — refuting "group permission bits include both read and write". -/
theorem claim_C7_counterexample :
    checkVsock envGroupReadOnly = Except.ok () ∧ 32 &&& 16 = 0 := by
  constructor
  · rfl
  · rfl

/-- C7 (amended): when locating the executable, reading the getcap
output, the stat, the Sys cast and the group lookup all succeed, the
vsock check succeeds if and only if the getcap output contains
"cap_net_bind_service+eip", the owning group is named "libvirt", and
at least one of the group read/write permission bits (0o060) is set;
any failed condition yields a descriptive failure. -/
theorem claim_C7_amended_vsock_check (env : VsockEnv) (exe out : String)
    (info : StatInfo) (g : String) :
    env.executable = Except.ok exe →
    env.getcapOutput = Except.ok out →
    env.stat = Except.ok info →
    info.sysCastOk = true →
    env.lookupGroup info.gid = Except.ok g →
    (checkVsock env = Except.ok () ↔
      (strContains out "cap_net_bind_service+eip" = true ∧ g = "libvirt"
        ∧ info.mode &&& 48 ≠ 0)) := by
  intro he hg hs hc hl
  by_cases hcap : strContains out "cap_net_bind_service+eip"
  · by_cases hgl : g = "libvirt"
    · by_cases hm : info.mode &&& 48 = 0
      · simp [checkVsock, he, hg, hs, hc, hl, hcap, hgl, hm]
      · simp [checkVsock, he, hg, hs, hc, hl, hcap, hgl, hm]
    · simp [checkVsock, he, hg, hs, hc, hl, hcap, hgl]
  · simp [checkVsock, he, hg, hs, hc, hl, hcap]

/-- Witness for C7 (amended): with read+write group bits the check
succeeds. -/
theorem claim_C7_amended_vsock_check_witness :
    checkVsock envGroupReadWrite = Except.ok () := by
  have h := claim_C7_amended_vsock_check envGroupReadWrite "/usr/local/bin/crc"
    "/usr/local/bin/crc = cap_net_bind_service+eip"
    { gid := 990, mode := 48, sysCastOk := true } "libvirt" rfl rfl rfl rfl rfl
  exact h.mpr ⟨rfl, rfl, by decide⟩

/-- The hostname grammar of the spec, stated independently of the
matcher: a first ASCII-alphanumeric character followed by ASCII
alphanumerics, hyphens and dots. -/
def MatchesValidHostNamePattern (s : String) : Prop :=
  ∃ c cs, s.data = c :: cs ∧ c.isAlphanum = true
    ∧ ∀ d ∈ cs, d.isAlphanum = true ∨ d = '-' ∨ d = '.'

/-- C9: the hostname validation predicate accepts exactly the strings
matching the pattern `[A-Za-z0-9][A-Za-z0-9.-]*`; in particular it
accepts "crc-1" and "a" and rejects "-crc", "crc_1" and "". -/
theorem claim_C9_hostname_validator :
    (∀ s : String, ValidateHostName s = true ↔ MatchesValidHostNamePattern s)
    ∧ ValidateHostName "crc-1" = true
    ∧ ValidateHostName "a" = true
    ∧ ValidateHostName "-crc" = false
    ∧ ValidateHostName "crc_1" = false
    ∧ ValidateHostName "" = false := by
  refine ⟨?_, rfl, rfl, rfl, rfl, rfl⟩
  intro s
  unfold ValidateHostName MatchesValidHostNamePattern
  cases hd : s.data with
  | nil => simp
  | cons c cs =>
    simp only [Bool.and_eq_true, List.all_eq_true]
    constructor
    · rintro ⟨h1, h2⟩
      refine ⟨c, cs, rfl, h1, ?_⟩
      intro d hdmem
      have hb := h2 d hdmem
      have hb2 : (d.isAlphanum = true ∨ d = '-') ∨ d = '.' := by
        simpa [Bool.or_eq_true] using hb
      tauto
    · rintro ⟨c', cs', heq, h1, h2⟩
      injection heq with e1 e2
      subst e1
      subst e2
      refine ⟨h1, ?_⟩
      intro d hdmem
      rcases h2 d hdmem with hh | hh | hh <;> simp [hh]

/-- Witness for C9: "crc-1" matches the hostname grammar. -/
theorem claim_C9_hostname_validator_witness :
    MatchesValidHostNamePattern "crc-1" :=
  (claim_C9_hostname_validator.1 "crc-1").mp rfl
